import Mathlib

/-!
Shallow embedding of the server installation / lifecycle subsystem of
`ai_diffusion/server.py` (ComfyUI backend manager), together with proofs
of the specification claims about it.

Filesystem snapshots are modelled as a list of existing leaf paths; a path
exists when it is a prefix of some recorded leaf (directories exist when
anything below them does, and leaves exist themselves).
-/

/-- A filesystem path, as a list of segments (`Path` in the source). -/
abbrev FsPath := List String

/-- A filesystem snapshot: the set of existing leaf paths. -/
abbrev FileSystem := List FsPath

/-- `p.exists()` in the snapshot: `p` is a prefix of some recorded leaf. -/
def pexists (fs : FileSystem) (p : FsPath) : Bool :=
  fs.any (fun q => p.isPrefixOf q)

/-- `mkdir(parents=True, exist_ok=True)`: record the path if absent. -/
def addPath (fs : FileSystem) (p : FsPath) : FileSystem :=
  if pexists fs p then fs else fs ++ [p]

/-- `shutil.rmtree(path, ignore_errors=True)`: drop everything under `p`. -/
def rmtreeFs (fs : FileSystem) (p : FsPath) : FileSystem :=
  fs.filter (fun q => !(p.isPrefixOf q))

/-- `CustomNode` named tuple from the source. -/
structure CustomNode where
  name : String
  folder : String
  url : String
  nodes : List String
deriving DecidableEq

/-- `ResourceKind` enum from the source. -/
inductive ResourceKind where
  | checkpoint
  | controlnet
  | clip_vision
  | ip_adapter
  | node
deriving DecidableEq

/-- `ModelResource` named tuple from the source. -/
structure ModelResource where
  name : String
  kind : ResourceKind
  folder : FsPath
  filename : String
  url : String
deriving DecidableEq

/-- `required_custom_nodes` catalog constant from the source. -/
def required_custom_nodes : List CustomNode :=
  [ { name := "ControlNet Preprocessors",
      folder := "comfyui_controlnet_aux",
      url := "https://github.com/Fannovel16/comfyui_controlnet_aux",
      nodes := ["InpaintPreprocessor"] },
    { name := "IP-Adapter",
      folder := "IPAdapter-ComfyUI",
      url := "https://github.com/laksjdjf/IPAdapter-ComfyUI",
      nodes := ["IPAdapter"] },
    { name := "External Tooling Nodes",
      folder := "comfyui-tooling-nodes",
      url := "https://github.com/Acly/comfyui-tooling-nodes",
      nodes := ["ETN_LoadImageBase64", "ETN_LoadMaskBase64",
                "ETN_SendImageWebSocket", "ETN_CropImage",
                "ETN_ApplyMaskToImage"] } ]

/-- `required_models` catalog constant from the source. -/
def required_models : List ModelResource :=
  [ { name := "ControlNet Inpaint",
      kind := ResourceKind.controlnet,
      folder := ["models", "controlnet"],
      filename := "control_v11p_sd15_inpaint.safetensors",
      url := "https://huggingface.co/comfyanonymous/ControlNet-v1-1_fp16_safetensors/resolve/main/control_v11p_sd15_inpaint_fp16.safetensors" },
    { name := "CLIP Vision model",
      kind := ResourceKind.clip_vision,
      folder := ["models", "clip_vision", "SD1.5"],
      filename := "pytorch_model.bin",
      url := "https://huggingface.co/h94/IP-Adapter/resolve/main/models/image_encoder/pytorch_model.bin" },
    { name := "IP-Adapter model",
      kind := ResourceKind.ip_adapter,
      folder := ["custom_nodes", "IPAdapter-ComfyUI", "models"],
      filename := "ip-adapter_sd15.bin",
      url := "https://huggingface.co/h94/IP-Adapter/resolve/main/models/ip-adapter_sd15.bin" } ]

/-- `default_checkpoints` catalog constant from the source. -/
def default_checkpoints : List ModelResource :=
  [ { name := "Realistic Vision",
      kind := ResourceKind.checkpoint,
      folder := ["models", "checkpoints"],
      filename := "realisticVisionV51_v51VAE.safetensors",
      url := "https://civitai.com/api/download/models/130072?type=Model&format=SafeTensor&size=pruned&fp=fp16" },
    { name := "DreamShaper",
      kind := ResourceKind.checkpoint,
      folder := ["models", "checkpoints"],
      filename := "dreamshaper_8.safetensors",
      url := "https://civitai.com/api/download/models/128713?type=Model&format=SafeTensor&size=pruned&fp=fp16" } ]

/-- `_all_resources` from the source: node names, then required model
names, then optional checkpoint names. -/
def all_resources : List String :=
  required_custom_nodes.map (fun n => n.name)
  ++ required_models.map (fun m => m.name)
  ++ default_checkpoints.map (fun c => c.name)

/-- `ServerState` enum from the source. -/
inductive ServerState where
  | not_installed
  | missing_resources
  | installing
  | stopped
  | starting
  | running
deriving DecidableEq

/-- Host environment outside the install tree: the platform flag
(`_is_windows`) and what `shutil.which` finds for `python` and `pip`
(`_find_program` in the source). -/
structure Platform where
  isWindows : Bool
  systemPython : Option FsPath
  systemPip : Option FsPath

/-- `_find_component`: first search path such that the path itself and
every listed file under it exist. -/
def find_component (files : List String) (search_paths : List FsPath)
    (fs : FileSystem) : Option FsPath :=
  search_paths.find? (fun path =>
    pexists fs path && files.all (fun f => pexists fs (path ++ [f])))

/-- Result of `Server.check_install`: the resolved environment paths plus
the state classification and the missing-resource name list. -/
structure ProbeResult where
  comfyDir : Option FsPath
  pythonCmd : Option FsPath
  pipCmd : Option FsPath
  state : ServerState
  missing : List String

/-- Backend-root search of `check_install` (lines 172-173 of the source):
look for `main.py`, `nodes.py` and `custom_nodes` under the server path or
its `ComfyUI` subdirectory. -/
def comfyProbe (fs : FileSystem) (path : FsPath) : Option FsPath :=
  find_component ["main.py", "nodes.py", "custom_nodes"]
    [path, path ++ ["ComfyUI"]] fs

/-- Interpreter search of `check_install` (lines 175-189 of the source):
returns the resolved `(python_cmd, pip_cmd)` pair, falling back to the
system-wide programs when no bundled interpreter directory matches. -/
def pythonProbe (plat : Platform) (fs : FileSystem) (path : FsPath)
    (comfy_dir : Option FsPath) : Option FsPath × Option FsPath :=
  let python_pkg :=
    if plat.isWindows then ["python3.dll", "python.exe"] else ["python", "python.so"]
  let python_search_paths := [path ++ ["python"]] ++
    (match comfy_dir with
     | some cd => [cd ++ ["python"], cd.dropLast ++ ["python"],
                   cd.dropLast ++ ["python_embeded"]]
     | none => [])
  let python_path := find_component python_pkg python_search_paths fs
  let exe := if plat.isWindows then ".exe" else ""
  match python_path with
  | none => (plat.systemPython, plat.systemPip)
  | some p => (some (p ++ ["python" ++ exe]), some (p ++ ["Scripts", "pip" ++ exe]))

/-- Missing required resources (lines 196-207 of the source): names of the
required custom nodes whose folder is absent, then names of the required
models whose file is absent, in catalog declaration order. -/
def requiredMissingNames (fs : FileSystem) (cd : FsPath) : List String :=
  (required_custom_nodes.filter (fun pkg =>
    !(pexists fs (cd ++ ["custom_nodes", pkg.folder])))).map (fun p => p.name)
  ++ (required_models.filter (fun r =>
    !(pexists fs (cd ++ r.folder ++ [r.filename])))).map (fun r => r.name)

/-- Missing optional checkpoints (lines 214-218 of the source). -/
def optionalMissingNames (fs : FileSystem) (cd : FsPath) : List String :=
  (default_checkpoints.filter (fun r =>
    !(pexists fs (cd ++ r.folder ++ [r.filename])))).map (fun r => r.name)

/-- Classification phase of `check_install` (lines 191-218 of the source):
given the resolved paths, produce state and missing-resource list. -/
def classify (fs : FileSystem) (comfy_dir : Option FsPath)
    (python_cmd pip_cmd : Option FsPath) : ProbeResult :=
  match comfy_dir with
  | none =>
      { comfyDir := none, pythonCmd := python_cmd, pipCmd := pip_cmd,
        state := ServerState.not_installed, missing := all_resources }
  | some cd =>
      if python_cmd.isSome && pip_cmd.isSome then
        let required_missing := requiredMissingNames fs cd
        let st :=
          if required_missing.length > 0 then ServerState.missing_resources
          else ServerState.stopped
        { comfyDir := some cd, pythonCmd := python_cmd, pipCmd := pip_cmd,
          state := st, missing := required_missing ++ optionalMissingNames fs cd }
      else
        { comfyDir := some cd, pythonCmd := python_cmd, pipCmd := pip_cmd,
          state := ServerState.not_installed, missing := all_resources }

/-- `Server.check_install` from the source, as a pure function of the
platform, filesystem snapshot and server path. -/
def check_install (plat : Platform) (fs : FileSystem) (path : FsPath) :
    ProbeResult :=
  classify fs (comfyProbe fs path)
    (pythonProbe plat fs path (comfyProbe fs path)).1
    (pythonProbe plat fs path (comfyProbe fs path)).2

/-- `Server.has_comfy` on a probe result. -/
def hasComfy (r : ProbeResult) : Bool := r.comfyDir.isSome

/-- `Server.has_python` on a probe result. -/
def hasPython (r : ProbeResult) : Bool := r.pythonCmd.isSome && r.pipCmd.isSome

/-- Counterexample environment: backend root markers present under `srv`,
but no interpreter anywhere (no bundled python, no system python). -/
def fs_comfy_no_python : FileSystem :=
  [["srv", "main.py"], ["srv", "nodes.py"], ["srv", "custom_nodes"]]

/-- Platform with no system-wide `python`/`pip` on the search path. -/
def plat_no_python : Platform :=
  { isWindows := false, systemPython := none, systemPip := none }

/-- Mutable fields of the `Server` facade that the lifecycle operations
touch: `state`, `url`, `missing_resources` and whether the process /
forwarding-task handles are set (`_process`, `_task`). -/
structure ServerS where
  state : ServerState
  url : Option String
  missing_resources : List String
  hasProcess : Bool
  hasTask : Bool
deriving DecidableEq

/-- Re-probe: run `check_install` and store its state and missing list on
the server (the other fields are untouched). -/
def applyProbe (s : ServerS) (plat : Platform) (fs : FileSystem)
    (path : FsPath) : ServerS :=
  { s with state := (check_install plat fs path).state,
           missing_resources := (check_install plat fs path).missing }

/-- Python's `str.strip()`: drop leading and trailing whitespace. -/
def pyStrip (s : String) : String :=
  String.mk (((s.data.dropWhile Char.isWhitespace).reverse.dropWhile
    Char.isWhitespace).reverse)

/-- Python's `str.startswith(pre)`. -/
def pyStartswith (s : String) (pre : String) : Bool :=
  pre.data.isPrefixOf s.data

/-- Worker for `pySplit`, fuelled by the input length so the recursion is
structural (each step consumes at least one character, so fuel equal to
the input length never runs out). -/
def splitGo (sep : List Char) : Nat → List Char → List Char → List (List Char)
  | _, [], acc => [acc.reverse]
  | 0, cs, acc => [acc.reverse ++ cs]
  | Nat.succ n, c :: rest, acc =>
      if sep.isPrefixOf (c :: rest) ∧ sep ≠ [] then
        acc.reverse :: splitGo sep n ((c :: rest).drop sep.length) []
      else splitGo sep n rest (c :: acc)

/-- Python's `str.split(sep)`: split on non-overlapping occurrences of
`sep`, left to right. -/
def pySplit (s : String) (sep : String) : List String :=
  (splitGo sep.data s.data.length s.data []).map String.mk

/-- The readiness marker substring checked by `Server.start`. -/
def readyMarker : String := "To see the GUI go to:"

/-- Behaviour of the spawned backend process as observed by `start`:
the stdout lines it emits before closing the stream, how long the final
`communicate()` drain takes, what it returns, and the exit code. -/
structure ProcBehavior where
  stdoutLines : List String
  drainTime : Nat
  drainOut : String
  drainErr : String
  returncode : Option Int

/-- The `async for line in stdout` loop of `start` (lines 365-371):
strip each line and stop at the first one starting with the readiness
marker, returning its stripped text. -/
def readLoop : List String → Option String
  | [] => none
  | line :: rest =>
      if pyStartswith (pyStrip line) readyMarker then some (pyStrip line)
      else readLoop rest

/-- `text.split("http://")[-1]` from line 370 of the source. -/
def extractUrl (text : String) : String :=
  ((pySplit text "http://").getLast?).getD ""

/-- The `timeout=10` bound on draining output in `start` (line 376). -/
def startDrainTimeout : Nat := 10

/-- The `timeout=5` bound on awaiting process exit in `stop` (line 412). -/
def stopWaitTimeout : Nat := 5

/-- Errors `start` can raise: the precondition assert, or the startup
exception carrying the captured error text and the exit code. -/
inductive StartErr where
  | assertFail
  | startupError (text : String) (returncode : Option Int)
deriving DecidableEq

/-- Result of `start`: the returned url or the raised error. -/
inductive StartOutcome where
  | ok (url : String)
  | err (e : StartErr)
deriving DecidableEq

/-- Full outcome of a `start` invocation. -/
structure StartRes where
  server : ServerS
  result : StartOutcome
  killed : Bool

/-- `Server.start` (lines 355-389): assert the precondition, spawn the
process, scan stdout for the readiness marker; on success store the url,
go to `running` and launch the forwarding task; otherwise drain with a
bounded wait (force-kill on its timeout), revert to `stopped`, clear the
process handle and raise. -/
def startS (s : ServerS) (p : ProcBehavior) : StartRes :=
  if s.state = ServerState.stopped ∨ s.state = ServerState.missing_resources then
    match readLoop p.stdoutLines with
    | some text =>
        { server := { s with
            state := ServerState.running
            url := some (extractUrl text)
            hasProcess := true
            hasTask := true },
          result := StartOutcome.ok (extractUrl text), killed := false }
    | none =>
        if p.drainTime ≤ startDrainTimeout then
          { server := { s with state := ServerState.stopped, hasProcess := false },
            result := StartOutcome.err (StartErr.startupError p.drainErr p.returncode),
            killed := false }
        else
          { server := { s with state := ServerState.stopped, hasProcess := false },
            result := StartOutcome.err
              (StartErr.startupError "Process exited unexpectedly" p.returncode),
            killed := true }
  else
    { server := s, result := StartOutcome.err StartErr.assertFail, killed := false }

/-- Full outcome of a `stop` invocation: `warned` records the logged
shutdown-timeout warning, `raised` whether an exception escaped (only the
precondition assert can). -/
structure StopRes where
  server : ServerS
  warned : Bool
  raised : Bool

/-- `Server.stop` (lines 406-420): assert `running`; terminate the
process, cancel the forwarding task, await exit with a bounded wait; a
timeout is only logged; the `finally` block always sets `stopped` and
clears both handles. `shutdownTime` is how long the process takes to
exit after the terminate signal. -/
def stopS (s : ServerS) (shutdownTime : Nat) : StopRes :=
  if s.state = ServerState.running then
    { server := { s with
        state := ServerState.stopped
        hasProcess := false
        hasTask := false },
      warned := decide (stopWaitTimeout < shutdownTime), raised := false }
  else
    { server := s, warned := false, raised := true }

/-- Effectful operations the installer performs against the outside world
(network downloads, archive extraction, dependency-install subprocesses,
file patches, folder renames). -/
inductive InstallAction where
  | download (url : String) (dest : FsPath)
  | extract (archive : FsPath) (target : FsPath)
  | run_process (cmd : List String)
  | patch_append (p : FsPath)
  | patch_prepend (p : FsPath)
  | rename (src : FsPath) (dst : FsPath)
deriving DecidableEq

/-- The world an install step runs against: the filesystem, the trace of
performed actions, and oracles describing the environment's behaviour
(whether a download of a url succeeds, the exit code of an executed
command, which paths extracting an archive creates). The network
`download` primitive itself is outside the shown sources and is modelled
from the spec as a black-box byte transfer to the destination path. -/
structure World where
  fs : FileSystem
  actions : List InstallAction
  downloadOk : String → Bool
  execRet : List String → Int
  extractAdds : FsPath → FsPath → List FsPath

/-- An installer computation: runs on a world, returns a result (or the
message of a raised exception) and the world afterwards. -/
def M (α : Type) := World → Except String α × World

/-- The computation that does nothing. -/
def mok : M Unit := fun w => (Except.ok (), w)

/-- Sequencing of two installer steps; a raised exception propagates. -/
def mseq (x : M Unit) (y : M Unit) : M Unit := fun w =>
  match x w with
  | (Except.ok _, w') => y w'
  | (Except.error e, w') => (Except.error e, w')

/-- Append an action to the world's trace. -/
def recordAct (a : InstallAction) (w : World) : World :=
  { w with actions := w.actions ++ [a] }

/-- `mkdir(parents=True, exist_ok=True)` as an installer step. -/
def mkdirPrim (p : FsPath) : M Unit := fun w =>
  (Except.ok (), { w with fs := addPath w.fs p })

/-- The black-box `download(network, url, archive)` primitive: records the
attempt, and on success the destination file exists afterwards; on failure
the exception propagates. -/
def downloadPrim (url : String) (dest : FsPath) : M Unit := fun w =>
  if w.downloadOk url then
    (Except.ok (), { recordAct (InstallAction.download url dest) w with
        fs := addPath w.fs dest })
  else
    (Except.error ("Download failed: " ++ url), recordAct (InstallAction.download url dest) w)

/-- `_download_cached` (lines 455-465): skip the download entirely when
the destination file already exists. -/
def download_cached (_name : String) (url : String) (archive : FsPath) :
    M Unit := fun w =>
  if pexists w.fs archive then (Except.ok (), w)
  else downloadPrim url archive w

/-- `_extract_archive` (lines 468-471): unzip `archive` into `target`,
creating the oracle-described paths. -/
def extract_archive (_name : String) (archive : FsPath) (target : FsPath) :
    M Unit := fun w =>
  (Except.ok (), { recordAct (InstallAction.extract archive target) w with
      fs := (w.extractAdds archive target).foldl addPath w.fs })

/-- `_execute_process` (lines 474-485): run a command; a non-zero exit
code raises (with the message hard-coded to name PyTorch, as in the
source). -/
def execute_process (_name : String) (cmd : List String) : M Unit := fun w =>
  if w.execRet cmd = 0 then
    (Except.ok (), recordAct (InstallAction.run_process cmd) w)
  else
    (Except.error "Error during PyTorch installation",
     recordAct (InstallAction.run_process cmd) w)

/-- Appending a line to a file (the `python310._pth` patch, line 263). -/
def append_file (p : FsPath) (_line : String) : M Unit := fun w =>
  (Except.ok (), recordAct (InstallAction.patch_append p) w)

/-- `_prepend_file` (lines 497-503). -/
def prepend_file (p : FsPath) (_line : String) : M Unit := fun w =>
  (Except.ok (), recordAct (InstallAction.patch_prepend p) w)

/-- Path rendered as the string handed to subprocess commands. -/
def pathStr (p : FsPath) : String := String.intercalate "/" p

/-- Last path segment (`path.name` in the source). -/
def pathName (p : FsPath) : String := (p.getLast?).getD ""

/-- Renaming a folder: re-prefix every leaf under `src` to live under
`dst`. -/
def renamePaths (fs : FileSystem) (src dst : FsPath) : FileSystem :=
  fs.map (fun q => if src.isPrefixOf q then dst ++ q.drop src.length else q)

/-- `_rename_extracted_folder` (lines 506-512): the extracted folder must
exist (else an installation error is raised), then it is renamed to the
canonical target. -/
def rename_extracted_folder (name : String) (path : FsPath)
    (suffix : String) : M Unit := fun w =>
  if pexists w.fs (path.dropLast ++ [pathName path ++ suffix]) then
    (Except.ok (),
     { recordAct (InstallAction.rename (path.dropLast ++ [pathName path ++ suffix]) path) w with
       fs := renamePaths w.fs (path.dropLast ++ [pathName path ++ suffix]) path })
  else
    (Except.error ("Error during " ++ name ++
      " installation: folder does not exist"), w)

/-- `_install_if_missing` (lines 488-494): skip when the target exists;
otherwise run the installer and, if it raises, delete the target directory
before re-raising. -/
def install_if_missing (path : FsPath) (installer : M Unit) : M Unit := fun w =>
  if pexists w.fs path then (Except.ok (), w)
  else
    match installer w with
    | (Except.ok a, w') => (Except.ok a, w')
    | (Except.error e, w') => (Except.error e, { w' with fs := rmtreeFs w'.fs path })

/-- Modelled from the spec: `ServerBackend` (GPU vs CPU flavor) comes from
the settings module, which is outside the shown sources. -/
inductive ServerBackend where
  | cuda
  | cpu
deriving DecidableEq

/-- The torch package index chosen per backend (lines 272-275). -/
def torch_index (b : ServerBackend) : String :=
  match b with
  | ServerBackend.cuda => "https://download.pytorch.org/whl/cu118"
  | ServerBackend.cpu => "https://download.pytorch.org/whl/cpu"

/-- `Server._install_python` (lines 253-281). -/
def install_python (sp cache : FsPath) (python_cmd pip_cmd : FsPath)
    (backend : ServerBackend) : M Unit :=
  mseq (download_cached "Python"
      "https://www.python.org/ftp/python/3.10.9/python-3.10.9-embed-amd64.zip"
      (cache ++ ["python-3.10.9-embed-amd64.zip"]))
  (mseq (extract_archive "Python" (cache ++ ["python-3.10.9-embed-amd64.zip"])
      (sp ++ ["python"]))
  (mseq (append_file (sp ++ ["python", "python310._pth"]) "import site\n")
  (mseq (download_cached "Python" "https://bootstrap.pypa.io/get-pip.py"
      (sp ++ ["python", "get-pip.py"]))
  (mseq (execute_process "Python"
      [pathStr python_cmd, pathStr (sp ++ ["python", "get-pip.py"])])
  (mseq (execute_process "PyTorch"
      [pathStr pip_cmd, "install", "torch", "torchvision", "torchaudio",
       "--index-url", torch_index backend])
  (prepend_file (sp ++ ["python", "python310._pth"]) "../ComfyUI\n"))))))

/-- `Server._install_comfy` (lines 283-293). -/
def install_comfy (cache cd : FsPath) (pip_cmd : FsPath) : M Unit :=
  mseq (download_cached "ComfyUI"
      "https://github.com/comfyanonymous/ComfyUI/archive/refs/heads/master.zip"
      (cache ++ ["ComfyUI.zip"]))
  (mseq (extract_archive "ComfyUI" (cache ++ ["ComfyUI.zip"]) cd.dropLast)
  (mseq (rename_extracted_folder "ComfyUI" cd "-master")
  (execute_process "ComfyUI"
      [pathStr pip_cmd, "install", "-r", pathStr (cd ++ ["requirements.txt"])])))

/-- `Server._install_custom_node` (lines 295-309): the dependency install
runs only when the node ships a requirements manifest. -/
def install_custom_node (cache cd : FsPath) (pip_cmd : FsPath)
    (pkg : CustomNode) : M Unit :=
  mseq (download_cached pkg.name (pkg.url ++ "/archive/refs/heads/main.zip")
      (cache ++ [pkg.folder ++ ".zip"]))
  (mseq (extract_archive pkg.name (cache ++ [pkg.folder ++ ".zip"])
      (cd ++ ["custom_nodes"]))
  (mseq (rename_extracted_folder pkg.name (cd ++ ["custom_nodes", pkg.folder]) "-main")
  (fun w =>
    if pexists w.fs (cd ++ ["custom_nodes", pkg.folder, "requirements.txt"]) then
      execute_process pkg.name
        [pathStr pip_cmd, "install", "-r",
         pathStr (cd ++ ["custom_nodes", pkg.folder, "requirements.txt"])] w
    else (Except.ok (), w))))

/-- The custom-node loop of `_install` (lines 238-240). -/
def installNodes (cache cd pip_cmd : FsPath) : List CustomNode → M Unit
  | [] => mok
  | pkg :: rest =>
      mseq (install_if_missing (cd ++ ["custom_nodes", pkg.folder])
            (install_custom_node cache cd pip_cmd pkg))
           (installNodes cache cd pip_cmd rest)

/-- The required-model loop of `_install` (lines 242-247). -/
def installModels (cd : FsPath) : List ModelResource → M Unit
  | [] => mok
  | r :: rest => fun w =>
      if pexists w.fs (cd ++ r.folder ++ [r.filename]) then
        installModels cd rest w
      else
        mseq (mseq (mkdirPrim (cd ++ r.folder))
              (download_cached r.name r.url (cd ++ r.folder ++ [r.filename])))
             (installModels cd rest) w

/-- `Server._install` (lines 220-251), effect part: create the cache
directory, bundle an embedded interpreter on Windows when the backend or
interpreter is missing, install the backend, the required custom nodes
and the required models, each step skipped when its target exists. -/
def install_impl (plat : Platform) (sp : FsPath) (backend : ServerBackend)
    (comfy0 python0 pip0 : Option FsPath) : M Unit :=
  mseq (mkdirPrim (sp ++ [".cache"]))
  (mseq (if plat.isWindows && (comfy0.isNone || (python0.isNone || pip0.isNone)) then
          install_if_missing (sp ++ ["python"])
            (install_python sp (sp ++ [".cache"])
              (sp ++ ["python", "python" ++ (if plat.isWindows then ".exe" else "")])
              (sp ++ ["python", "Scripts", "pip" ++ (if plat.isWindows then ".exe" else "")])
              backend)
         else mok)
  (mseq (install_if_missing (comfy0.getD (sp ++ ["ComfyUI"]))
          (install_comfy (sp ++ [".cache"]) (comfy0.getD (sp ++ ["ComfyUI"]))
            (if plat.isWindows && (comfy0.isNone || (python0.isNone || pip0.isNone))
             then sp ++ ["python", "Scripts", "pip" ++ (if plat.isWindows then ".exe" else "")]
             else pip0.getD [])))
  (mseq (installNodes (sp ++ [".cache"]) (comfy0.getD (sp ++ ["ComfyUI"]))
          (if plat.isWindows && (comfy0.isNone || (python0.isNone || pip0.isNone))
           then sp ++ ["python", "Scripts", "pip" ++ (if plat.isWindows then ".exe" else "")]
           else pip0.getD [])
          required_custom_nodes)
        (installModels (comfy0.getD (sp ++ ["ComfyUI"])) required_models))))

/-- Full outcome of an `install` invocation. -/
structure InstallRes where
  server : ServerS
  raised : Option String
  world : World

/-- `Server.install` (lines 311-330) wrapped around `_install`: the
precondition assert, the non-Windows missing-interpreter guard, then the
effect part; on success `_install` itself sets `stopped` and re-probes
(lines 249-251); on failure the handler sets `stopped`, re-probes and
re-raises. -/
def installFull (plat : Platform) (sp : FsPath) (backend : ServerBackend)
    (s : ServerS) (pr : ProbeResult) (w : World) : InstallRes :=
  if s.state = ServerState.not_installed ∨ s.state = ServerState.missing_resources then
    if !plat.isWindows && (pr.pythonCmd.isNone || pr.pipCmd.isNone) then
      { server := s,
        raised := some "Python not found. Please install Python via your package manager and restart.",
        world := w }
    else
      match install_impl plat sp backend pr.comfyDir pr.pythonCmd pr.pipCmd w with
      | (Except.ok _, w') =>
          { server := applyProbe { s with state := ServerState.stopped } plat w'.fs sp,
            raised := none, world := w' }
      | (Except.error e, w') =>
          { server := applyProbe { s with state := ServerState.stopped } plat w'.fs sp,
            raised := some e, world := w' }
  else
    { server := s, raised := some "AssertionError", world := w }

/-- Full outcome of an `install_optional` invocation; `stateTrace` lists
the successive values assigned to `self.state` during the call. -/
structure OptionalRes where
  server : ServerS
  raised : Option String
  world : World
  stateTrace : List ServerState

/-- The checkpoint loop of `install_optional` (lines 344-347): for each
default checkpoint named in `packages` whose target file is absent,
download it. -/
def optLoop (cd : FsPath) (packages : List String) :
    List ModelResource → M Unit
  | [] => mok
  | r :: rest => fun w =>
      if packages.contains r.name then
        if pexists w.fs (cd ++ r.folder ++ [r.filename]) then
          optLoop cd packages rest w
        else
          mseq (download_cached r.name r.url (cd ++ r.folder ++ [r.filename]))
               (optLoop cd packages rest) w
      else optLoop cd packages rest w

/-- `Server.install_optional` (lines 332-353): assert the backend root is
present, set `installing`, download the named absent checkpoints, and in
a `finally` restore the previous state and re-probe, whether or not an
exception is propagating. -/
def install_optional (plat : Platform) (sp : FsPath) (s : ServerS)
    (comfy0 : Option FsPath) (packages : List String) (w : World) :
    OptionalRes :=
  match comfy0 with
  | none =>
      { server := s, raised := some "AssertionError", world := w,
        stateTrace := [] }
  | some cd =>
      match optLoop cd packages default_checkpoints w with
      | (Except.ok _, w') =>
          { server := applyProbe s plat w'.fs sp, raised := none, world := w',
            stateTrace := [ServerState.installing, s.state,
              (check_install plat w'.fs sp).state] }
      | (Except.error e, w') =>
          { server := applyProbe s plat w'.fs sp, raised := some e, world := w',
            stateTrace := [ServerState.installing, s.state,
              (check_install plat w'.fs sp).state] }

/-- Platform with a system-wide interpreter and package installer. -/
def plat_sys : Platform :=
  { isWindows := false, systemPython := some ["usr", "bin", "python"],
    systemPip := some ["usr", "bin", "pip"] }

/-- A complete installation under `srv`: backend markers, every required
custom-node folder and every required model file present. -/
def fs_complete : FileSystem :=
  [["srv", "main.py"], ["srv", "nodes.py"], ["srv", "custom_nodes"],
   ["srv", "custom_nodes", "comfyui_controlnet_aux"],
   ["srv", "custom_nodes", "IPAdapter-ComfyUI"],
   ["srv", "custom_nodes", "comfyui-tooling-nodes"],
   ["srv", "models", "controlnet", "control_v11p_sd15_inpaint.safetensors"],
   ["srv", "models", "clip_vision", "SD1.5", "pytorch_model.bin"],
   ["srv", "custom_nodes", "IPAdapter-ComfyUI", "models", "ip-adapter_sd15.bin"]]

/-- A world over a given filesystem whose oracles always cooperate:
downloads succeed, commands exit 0, archives extract to nothing. -/
def mkWorld (fs : FileSystem) : World :=
  { fs := fs, actions := [], downloadOk := fun _ => true,
    execRet := fun _ => 0, extractAdds := fun _ _ => [] }

/-- A sample server value at rest. -/
def serverAt (st : ServerState) : ServerS :=
  { state := st, url := none, missing_resources := [],
    hasProcess := false, hasTask := false }

/-- An installer that raises immediately, leaving the world unchanged. -/
def failingInstaller : M Unit := fun w =>
  ((Except.error "Download failed" : Except String Unit), w)


/-! ## Theorems -/

/-- Field projections of `classify`: the resolved paths pass through. -/
theorem classify_fields (fs : FileSystem) (cdo : Option FsPath)
    (py pip : Option FsPath) :
    (classify fs cdo py pip).comfyDir = cdo ∧
    (classify fs cdo py pip).pythonCmd = py ∧
    (classify fs cdo py pip).pipCmd = pip := by
  cases cdo with
  | none => simp [classify]
  | some cd => simp only [classify]; split <;> simp

/-- Characterisation of the classification phase: `not_installed` with the
full catalog missing holds exactly when NOT both the backend root and the
interpreter were resolved; otherwise the per-resource classification gives
`missing_resources` or `stopped`. -/
theorem classify_spec (fs : FileSystem) (cdo : Option FsPath)
    (py pip : Option FsPath) :
    (((classify fs cdo py pip).state = ServerState.not_installed ∧
      (classify fs cdo py pip).missing = all_resources) ↔
      ¬(hasComfy (classify fs cdo py pip) = true ∧
        hasPython (classify fs cdo py pip) = true))
    ∧ ((hasComfy (classify fs cdo py pip) = true ∧
        hasPython (classify fs cdo py pip) = true) →
        (classify fs cdo py pip).state = ServerState.missing_resources ∨
        (classify fs cdo py pip).state = ServerState.stopped) := by
  cases cdo with
  | none => simp [classify, hasComfy, hasPython]
  | some cd =>
    by_cases h : py.isSome && pip.isSome
    · rw [Bool.and_eq_true] at h
      constructor
      · constructor
        · rintro ⟨h1, _⟩
          simp [classify, h.1, h.2] at h1
          split at h1 <;> simp_all
        · intro hc
          exfalso
          exact hc ⟨by simp [classify, h.1, h.2, hasComfy], by
            simp [classify, h.1, h.2, hasPython]⟩
      · intro _
        simp [classify, h.1, h.2]
        tauto
    · constructor
      · simp [classify, h, hasComfy, hasPython]
      · intro hc
        exfalso
        apply h
        have h2 := hc.2
        simp [classify, h, hasPython] at h2

/-- Per-resource classification phase when both paths resolved. -/
theorem classify_required (fs : FileSystem) (cd : FsPath)
    (py pip : Option FsPath) (h : (py.isSome && pip.isSome) = true) :
    ((classify fs (some cd) py pip).state = ServerState.missing_resources ↔
      requiredMissingNames fs cd ≠ [])
    ∧ ((classify fs (some cd) py pip).state = ServerState.stopped ↔
      requiredMissingNames fs cd = [])
    ∧ (classify fs (some cd) py pip).missing =
      requiredMissingNames fs cd ++ optionalMissingNames fs cd := by
  by_cases hnil : requiredMissingNames fs cd = []
  · simp [classify, h, hnil]
  · have hlen := List.length_pos.mpr hnil
    simp [classify, h, hnil, hlen]

/-- C1, counterexample: on a snapshot where the backend root IS found but
no interpreter is found anywhere, `check_install` still classifies the
state as `not_installed` — refuting "not_installed exactly when no backend
root AND no interpreter is found". -/
theorem claim1_counterexample :
    (check_install plat_no_python fs_comfy_no_python ["srv"]).state =
      ServerState.not_installed ∧
    hasComfy (check_install plat_no_python fs_comfy_no_python ["srv"]) = true := by
  decide

/-- C1, amended: for every filesystem snapshot, `check_install` classifies
the state as `not_installed` with the missing-resource set equal to the
full catalog exactly when NOT both a backend root and an interpreter are
found (backend root missing OR interpreter missing); otherwise it proceeds
to the per-resource checks, yielding `missing_resources` or `stopped`. -/
theorem claim1_amended (plat : Platform) (fs : FileSystem) (path : FsPath) :
    (((check_install plat fs path).state = ServerState.not_installed ∧
      (check_install plat fs path).missing = all_resources) ↔
      ¬(hasComfy (check_install plat fs path) = true ∧
        hasPython (check_install plat fs path) = true))
    ∧ ((hasComfy (check_install plat fs path) = true ∧
        hasPython (check_install plat fs path) = true) →
        (check_install plat fs path).state = ServerState.missing_resources ∨
        (check_install plat fs path).state = ServerState.stopped) :=
  classify_spec fs (comfyProbe fs path)
    (pythonProbe plat fs path (comfyProbe fs path)).1
    (pythonProbe plat fs path (comfyProbe fs path)).2

/-- C1, witness for the amended claim at a concrete snapshot. -/
theorem claim1_amended_witness :
    (((check_install plat_sys fs_comfy_no_python ["srv"]).state = ServerState.not_installed ∧
      (check_install plat_sys fs_comfy_no_python ["srv"]).missing = all_resources) ↔
      ¬(hasComfy (check_install plat_sys fs_comfy_no_python ["srv"]) = true ∧
        hasPython (check_install plat_sys fs_comfy_no_python ["srv"]) = true))
    ∧ ((hasComfy (check_install plat_sys fs_comfy_no_python ["srv"]) = true ∧
        hasPython (check_install plat_sys fs_comfy_no_python ["srv"]) = true) →
        (check_install plat_sys fs_comfy_no_python ["srv"]).state = ServerState.missing_resources ∨
        (check_install plat_sys fs_comfy_no_python ["srv"]).state = ServerState.stopped) :=
  claim1_amended plat_sys fs_comfy_no_python ["srv"]

/-- C2: when a backend root and an interpreter are found, the state is
`missing_resources` iff some required custom node or model is absent
(`stopped` otherwise), and the missing list is exactly the absent required
items in catalog order followed by the absent optional checkpoints; the
state classification never depends on the optional checkpoints. -/
theorem claim2_classification (plat : Platform) (fs : FileSystem)
    (path : FsPath) (cd : FsPath)
    (hcd : (check_install plat fs path).comfyDir = some cd)
    (hpy : hasPython (check_install plat fs path) = true) :
    ((check_install plat fs path).state = ServerState.missing_resources ↔
      requiredMissingNames fs cd ≠ [])
    ∧ ((check_install plat fs path).state = ServerState.stopped ↔
      requiredMissingNames fs cd = [])
    ∧ (check_install plat fs path).missing =
      requiredMissingNames fs cd ++ optionalMissingNames fs cd := by
  rw [check_install] at hcd hpy ⊢
  rw [(classify_fields fs (comfyProbe fs path)
    (pythonProbe plat fs path (comfyProbe fs path)).1
    (pythonProbe plat fs path (comfyProbe fs path)).2).1] at hcd
  rw [hcd] at hpy ⊢
  unfold hasPython at hpy
  rw [(classify_fields fs (some cd)
    (pythonProbe plat fs path (some cd)).1
    (pythonProbe plat fs path (some cd)).2).2.1,
    (classify_fields fs (some cd)
    (pythonProbe plat fs path (some cd)).1
    (pythonProbe plat fs path (some cd)).2).2.2] at hpy
  exact classify_required fs cd _ _ hpy

/-- C2, witness: concrete snapshot with backend root and system
interpreter present and every resource missing. -/
theorem claim2_witness :
    ((check_install plat_sys fs_comfy_no_python ["srv"]).state =
        ServerState.missing_resources ↔
      requiredMissingNames fs_comfy_no_python ["srv"] ≠ [])
    ∧ ((check_install plat_sys fs_comfy_no_python ["srv"]).state =
        ServerState.stopped ↔
      requiredMissingNames fs_comfy_no_python ["srv"] = [])
    ∧ (check_install plat_sys fs_comfy_no_python ["srv"]).missing =
      requiredMissingNames fs_comfy_no_python ["srv"] ++
        optionalMissingNames fs_comfy_no_python ["srv"] :=
  claim2_classification plat_sys fs_comfy_no_python ["srv"] ["srv"]
    (by decide) (by decide)

/-- `readLoop` finds the first marker line. -/
theorem readLoop_found (pre rest : List String) (line : String)
    (hline : pyStartswith (pyStrip line) readyMarker = true)
    (hpre : ∀ l ∈ pre, pyStartswith (pyStrip l) readyMarker = false) :
    readLoop (pre ++ line :: rest) = some (pyStrip line) := by
  induction pre with
  | nil => simp [readLoop, hline]
  | cons a as ih =>
      have ha := hpre a (by simp)
      rw [List.cons_append, readLoop.eq_def]
      simp only [ha]
      exact ih (fun l hl => hpre l (by simp [hl]))

/-- `readLoop` finds nothing when no line carries the marker. -/
theorem readLoop_none (lines : List String)
    (h : ∀ l ∈ lines, pyStartswith (pyStrip l) readyMarker = false) :
    readLoop lines = none := by
  induction lines with
  | nil => rfl
  | cons a as ih =>
      have ha := h a (by simp)
      rw [readLoop.eq_def]
      simp only [ha]
      exact ih (fun l hl => h l (by simp [hl]))

/-- C3: if `start` is called in state `stopped` or `missing_resources` and
the process emits the output line
`"To see the GUI go to: http://localhost:9000"` (after lines without the
readiness marker), then `start` sets state to `running`, sets the url to
`"localhost:9000"`, and returns that url. -/
theorem claim3_start_success (s : ServerS) (p : ProcBehavior)
    (pre rest : List String)
    (hstate : s.state = ServerState.stopped ∨
      s.state = ServerState.missing_resources)
    (hlines : p.stdoutLines =
      pre ++ "To see the GUI go to: http://localhost:9000" :: rest)
    (hpre : ∀ l ∈ pre, pyStartswith (pyStrip l) readyMarker = false) :
    (startS s p).server.state = ServerState.running ∧
    (startS s p).server.url = some "localhost:9000" ∧
    (startS s p).result = StartOutcome.ok "localhost:9000" := by
  have hrl : readLoop p.stdoutLines =
      some "To see the GUI go to: http://localhost:9000" := by
    rw [hlines]
    have := readLoop_found pre rest "To see the GUI go to: http://localhost:9000"
      (by decide) hpre
    simpa using this
  have hurl : extractUrl "To see the GUI go to: http://localhost:9000" =
      "localhost:9000" := by decide
  simp [startS, hstate, hrl, hurl]

/-- C4: if the output stream ends without any line carrying the readiness
marker, `start` raises a startup error carrying the captured stderr text
(when the bounded drain of about 10 time units completes) and the process
exit code, leaves state `stopped`, clears the process handle, and
force-kills the process if the drain wait times out. -/
theorem claim4_start_failure (s : ServerS) (p : ProcBehavior)
    (hstate : s.state = ServerState.stopped ∨
      s.state = ServerState.missing_resources)
    (hno : ∀ l ∈ p.stdoutLines, pyStartswith (pyStrip l) readyMarker = false) :
    (startS s p).server.state = ServerState.stopped ∧
    (startS s p).server.hasProcess = false ∧
    (p.drainTime ≤ startDrainTimeout →
      (startS s p).result =
        StartOutcome.err (StartErr.startupError p.drainErr p.returncode) ∧
      (startS s p).killed = false) ∧
    (startDrainTimeout < p.drainTime →
      (startS s p).result = StartOutcome.err
        (StartErr.startupError "Process exited unexpectedly" p.returncode) ∧
      (startS s p).killed = true) := by
  have hrl := readLoop_none p.stdoutLines hno
  by_cases hd : p.drainTime ≤ startDrainTimeout
  · simp [startS, hstate, hrl, hd]
  · simp [startS, hstate, hrl, hd]

/-- C4, witness at a concrete process behaviour. -/
theorem claim4_witness :
    ((serverAt ServerState.stopped).state = ServerState.stopped ∨
      (serverAt ServerState.stopped).state = ServerState.missing_resources) ∧
    (∀ l ∈ ["loading model", "error: out of memory"],
      pyStartswith (pyStrip l) readyMarker = false) ∧
    ((startS (serverAt ServerState.stopped)
        { stdoutLines := ["loading model", "error: out of memory"],
          drainTime := 1, drainOut := "", drainErr := "boom",
          returncode := some 1 }).server.state = ServerState.stopped ∧
     (startS (serverAt ServerState.stopped)
        { stdoutLines := ["loading model", "error: out of memory"],
          drainTime := 1, drainOut := "", drainErr := "boom",
          returncode := some 1 }).server.hasProcess = false ∧
     (1 ≤ startDrainTimeout →
      (startS (serverAt ServerState.stopped)
        { stdoutLines := ["loading model", "error: out of memory"],
          drainTime := 1, drainOut := "", drainErr := "boom",
          returncode := some 1 }).result =
        StartOutcome.err (StartErr.startupError "boom" (some 1)) ∧
      (startS (serverAt ServerState.stopped)
        { stdoutLines := ["loading model", "error: out of memory"],
          drainTime := 1, drainOut := "", drainErr := "boom",
          returncode := some 1 }).killed = false) ∧
     (startDrainTimeout < 1 →
      (startS (serverAt ServerState.stopped)
        { stdoutLines := ["loading model", "error: out of memory"],
          drainTime := 1, drainOut := "", drainErr := "boom",
          returncode := some 1 }).result = StartOutcome.err
        (StartErr.startupError "Process exited unexpectedly" (some 1)) ∧
      (startS (serverAt ServerState.stopped)
        { stdoutLines := ["loading model", "error: out of memory"],
          drainTime := 1, drainOut := "", drainErr := "boom",
          returncode := some 1 }).killed = true)) :=
  ⟨Or.inl rfl, by decide,
   claim4_start_failure (serverAt ServerState.stopped)
     { stdoutLines := ["loading model", "error: out of memory"],
       drainTime := 1, drainOut := "", drainErr := "boom",
       returncode := some 1 }
     (Or.inl rfl) (by decide)⟩

/-- C3, witness at a concrete process behaviour. -/
theorem claim3_witness :
    ((serverAt ServerState.stopped).state = ServerState.stopped ∨
      (serverAt ServerState.stopped).state = ServerState.missing_resources) ∧
    ((startS (serverAt ServerState.stopped)
        { stdoutLines := ["loading",
            "To see the GUI go to: http://localhost:9000"],
          drainTime := 0, drainOut := "", drainErr := "",
          returncode := none }).server.state = ServerState.running ∧
     (startS (serverAt ServerState.stopped)
        { stdoutLines := ["loading",
            "To see the GUI go to: http://localhost:9000"],
          drainTime := 0, drainOut := "", drainErr := "",
          returncode := none }).server.url = some "localhost:9000" ∧
     (startS (serverAt ServerState.stopped)
        { stdoutLines := ["loading",
            "To see the GUI go to: http://localhost:9000"],
          drainTime := 0, drainOut := "", drainErr := "",
          returncode := none }).result = StartOutcome.ok "localhost:9000") :=
  ⟨Or.inl rfl,
   claim3_start_success (serverAt ServerState.stopped)
     { stdoutLines := ["loading", "To see the GUI go to: http://localhost:9000"],
       drainTime := 0, drainOut := "", drainErr := "", returncode := none }
     ["loading"] [] (Or.inl rfl) rfl (by decide)⟩

/-- C5: `stop` invoked in state `running` never raises (a shutdown-wait
timeout is only logged), and in all cases state is set to `stopped` and
both the process handle and the forwarding-task handle are cleared. -/
theorem claim5_stop_total (s : ServerS) (shutdownTime : Nat)
    (h : s.state = ServerState.running) :
    (stopS s shutdownTime).raised = false ∧
    (stopS s shutdownTime).server.state = ServerState.stopped ∧
    (stopS s shutdownTime).server.hasProcess = false ∧
    (stopS s shutdownTime).server.hasTask = false := by
  simp [stopS, h]

/-- C5, witness at a concrete shutdown time exceeding the bound. -/
theorem claim5_witness :
    (serverAt ServerState.running).state = ServerState.running ∧
    ((stopS (serverAt ServerState.running) 100).raised = false ∧
     (stopS (serverAt ServerState.running) 100).server.state = ServerState.stopped ∧
     (stopS (serverAt ServerState.running) 100).server.hasProcess = false ∧
     (stopS (serverAt ServerState.running) 100).server.hasTask = false) :=
  ⟨rfl, claim5_stop_total (serverAt ServerState.running) 100 rfl⟩

/-- C10: `stop` never clears the `url` field, and no modelled operation
(`stop`, `start`, re-probe, `install`, `install_optional`) ever resets a
set `url` back to absent. -/
theorem claim10_url_never_cleared :
    (∀ (s : ServerS) (t : Nat), (stopS s t).server.url = s.url)
    ∧ (∀ (s : ServerS) (p : ProcBehavior),
        (startS s p).server.url = s.url ∨
        ∃ u, (startS s p).server.url = some u)
    ∧ (∀ (s : ServerS) (plat : Platform) (fs : FileSystem) (sp : FsPath),
        (applyProbe s plat fs sp).url = s.url)
    ∧ (∀ (plat : Platform) (sp : FsPath) (backend : ServerBackend)
        (s : ServerS) (pr : ProbeResult) (w : World),
        (installFull plat sp backend s pr w).server.url = s.url)
    ∧ (∀ (plat : Platform) (sp : FsPath) (s : ServerS)
        (comfy0 : Option FsPath) (packages : List String) (w : World),
        (install_optional plat sp s comfy0 packages w).server.url = s.url) := by
  refine ⟨?_, ?_, ?_, ?_, ?_⟩
  · intro s t
    by_cases h : s.state = ServerState.running <;> simp [stopS, h]
  · intro s p
    by_cases h : s.state = ServerState.stopped ∨ s.state = ServerState.missing_resources
    · cases hrl : readLoop p.stdoutLines with
      | some text => right; exact ⟨extractUrl text, by simp [startS, h, hrl]⟩
      | none =>
          left
          by_cases hd : p.drainTime ≤ startDrainTimeout <;>
            simp [startS, h, hrl, hd]
    · left; simp [startS, h]
  · intro s plat fs sp
    simp [applyProbe]
  · intro plat sp backend s pr w
    by_cases h : s.state = ServerState.not_installed ∨ s.state = ServerState.missing_resources
    · by_cases h2 : (!plat.isWindows && (pr.pythonCmd.isNone || pr.pipCmd.isNone)) = true
      · simp [installFull, h, h2]
      · rcases hrun : install_impl plat sp backend pr.comfyDir pr.pythonCmd pr.pipCmd w with ⟨r, w'⟩
        cases r <;> simp [installFull, h, h2, hrun, applyProbe]
    · simp [installFull, h]
  · intro plat sp s comfy0 packages w
    cases comfy0 with
    | none => simp [install_optional]
    | some cd =>
        rcases hrun : optLoop cd packages default_checkpoints w with ⟨r, w'⟩
        cases r <;> simp [install_optional, hrun, applyProbe]

/-- `check_install` only ever yields the three rest states. -/
theorem classify_state_cases (fs : FileSystem) (cdo : Option FsPath)
    (py pip : Option FsPath) :
    (classify fs cdo py pip).state = ServerState.not_installed ∨
    (classify fs cdo py pip).state = ServerState.missing_resources ∨
    (classify fs cdo py pip).state = ServerState.stopped := by
  cases cdo with
  | none => simp [classify]
  | some cd =>
      by_cases h : (py.isSome && pip.isSome) = true
      · simp only [classify, h, if_true]
        split <;> simp
      · simp [classify, h]

/-- C6: after `install` completes, normally or by raising, the state is a
stable rest value (one of `not_installed`, `missing_resources`,
`stopped`), never the transient `installing`; whenever the body is
entered, that value is the one determined by re-probing the filesystem. -/
theorem claim6_install_rest_state (plat : Platform) (sp : FsPath)
    (backend : ServerBackend) (s : ServerS) (pr : ProbeResult) (w : World)
    (h : s.state = ServerState.not_installed ∨
      s.state = ServerState.missing_resources) :
    ((installFull plat sp backend s pr w).server.state = ServerState.not_installed ∨
     (installFull plat sp backend s pr w).server.state = ServerState.missing_resources ∨
     (installFull plat sp backend s pr w).server.state = ServerState.stopped)
    ∧ (installFull plat sp backend s pr w).server.state ≠ ServerState.installing
    ∧ ((plat.isWindows || (pr.pythonCmd.isSome && pr.pipCmd.isSome)) = true →
        (installFull plat sp backend s pr w).server.state =
          (check_install plat (installFull plat sp backend s pr w).world.fs sp).state) := by
  unfold installFull
  rw [if_pos h]
  by_cases h2 : (!plat.isWindows && (pr.pythonCmd.isNone || pr.pipCmd.isNone)) = true
  · rw [if_pos h2]
    refine ⟨h.imp id Or.inl, ?_, ?_⟩
    · rcases h with h | h <;> simp [h]
    · intro hg
      exfalso
      cases hpy : pr.pythonCmd <;> cases hpp : pr.pipCmd <;> simp_all
  · rw [if_neg h2]
    rcases hrun : install_impl plat sp backend pr.comfyDir pr.pythonCmd pr.pipCmd w
      with ⟨r, w'⟩
    have hcs := classify_state_cases w'.fs (comfyProbe w'.fs sp)
      (pythonProbe plat w'.fs sp (comfyProbe w'.fs sp)).1
      (pythonProbe plat w'.fs sp (comfyProbe w'.fs sp)).2
    cases r with
    | ok a =>
        simp only [hrun]
        refine ⟨?_, ?_, ?_⟩
        · simpa [applyProbe, check_install] using hcs
        · rcases hcs with h3 | h3 | h3 <;>
            simp [applyProbe, check_install, h3]
        · intro _
          simp [applyProbe]
    | error e =>
        simp only [hrun]
        refine ⟨?_, ?_, ?_⟩
        · simpa [applyProbe, check_install] using hcs
        · rcases hcs with h3 | h3 | h3 <;>
            simp [applyProbe, check_install, h3]
        · intro _
          simp [applyProbe]

/-- C6, witness at a concrete environment. -/
theorem claim6_witness :
    ((serverAt ServerState.missing_resources).state = ServerState.not_installed ∨
      (serverAt ServerState.missing_resources).state = ServerState.missing_resources) ∧
    (((installFull plat_sys ["srv"] ServerBackend.cpu
        (serverAt ServerState.missing_resources)
        (check_install plat_sys fs_comfy_no_python ["srv"])
        (mkWorld fs_comfy_no_python)).server.state = ServerState.not_installed ∨
      (installFull plat_sys ["srv"] ServerBackend.cpu
        (serverAt ServerState.missing_resources)
        (check_install plat_sys fs_comfy_no_python ["srv"])
        (mkWorld fs_comfy_no_python)).server.state = ServerState.missing_resources ∨
      (installFull plat_sys ["srv"] ServerBackend.cpu
        (serverAt ServerState.missing_resources)
        (check_install plat_sys fs_comfy_no_python ["srv"])
        (mkWorld fs_comfy_no_python)).server.state = ServerState.stopped)
    ∧ (installFull plat_sys ["srv"] ServerBackend.cpu
        (serverAt ServerState.missing_resources)
        (check_install plat_sys fs_comfy_no_python ["srv"])
        (mkWorld fs_comfy_no_python)).server.state ≠ ServerState.installing
    ∧ ((plat_sys.isWindows ||
        ((check_install plat_sys fs_comfy_no_python ["srv"]).pythonCmd.isSome &&
         (check_install plat_sys fs_comfy_no_python ["srv"]).pipCmd.isSome)) = true →
        (installFull plat_sys ["srv"] ServerBackend.cpu
          (serverAt ServerState.missing_resources)
          (check_install plat_sys fs_comfy_no_python ["srv"])
          (mkWorld fs_comfy_no_python)).server.state =
          (check_install plat_sys
            (installFull plat_sys ["srv"] ServerBackend.cpu
              (serverAt ServerState.missing_resources)
              (check_install plat_sys fs_comfy_no_python ["srv"])
              (mkWorld fs_comfy_no_python)).world.fs ["srv"]).state)) :=
  ⟨Or.inr rfl,
   claim6_install_rest_state plat_sys ["srv"] ServerBackend.cpu
     (serverAt ServerState.missing_resources)
     (check_install plat_sys fs_comfy_no_python ["srv"])
     (mkWorld fs_comfy_no_python) (Or.inr rfl)⟩

/-- After `rmtree p`, `p` no longer exists. -/
theorem pexists_rmtree (fs : FileSystem) (p : FsPath) :
    pexists (rmtreeFs fs p) p = false := by
  simp only [pexists, rmtreeFs, List.any_eq_false]
  intro q hq
  rw [List.mem_filter] at hq
  have h2 := hq.2
  simp only [Bool.not_eq_true'] at h2
  simp [← List.isPrefixOf_iff_prefix, h2]

/-- C7: if an exception occurs inside an install step guarded by
`_install_if_missing`, the created target directory is deleted before the
exception propagates, the target therefore still probes as missing, and a
retried install runs the step again instead of skipping it. -/
theorem claim7_cleanup_on_failure (path : FsPath) (installer : M Unit)
    (w w' : World) (e : String)
    (hmiss : pexists w.fs path = false)
    (hrun : installer w = (Except.error e, w')) :
    install_if_missing path installer w =
      (Except.error e, { w' with fs := rmtreeFs w'.fs path }) ∧
    pexists (rmtreeFs w'.fs path) path = false ∧
    (∀ (installer2 : M Unit) (r : Unit) (w2 : World),
      installer2 { w' with fs := rmtreeFs w'.fs path } = (Except.ok r, w2) →
      install_if_missing path installer2 { w' with fs := rmtreeFs w'.fs path } =
        (Except.ok r, w2)) := by
  refine ⟨?_, pexists_rmtree w'.fs path, ?_⟩
  · simp [install_if_missing, hmiss, hrun]
  · intro installer2 r w2 h2
    simp [install_if_missing, pexists_rmtree w'.fs path, h2]

/-- C7, witness with a concretely failing installer. -/
theorem claim7_witness :
    pexists (mkWorld fs_comfy_no_python).fs ["srv", "custom_nodes", "comfyui_controlnet_aux"] = false ∧
    (failingInstaller
        (mkWorld fs_comfy_no_python) =
      (Except.error "Download failed", mkWorld fs_comfy_no_python)) ∧
    (install_if_missing ["srv", "custom_nodes", "comfyui_controlnet_aux"]
        failingInstaller
        (mkWorld fs_comfy_no_python) =
      (Except.error "Download failed",
       { mkWorld fs_comfy_no_python with
         fs := rmtreeFs (mkWorld fs_comfy_no_python).fs
           ["srv", "custom_nodes", "comfyui_controlnet_aux"] }) ∧
     pexists (rmtreeFs (mkWorld fs_comfy_no_python).fs
        ["srv", "custom_nodes", "comfyui_controlnet_aux"])
        ["srv", "custom_nodes", "comfyui_controlnet_aux"] = false ∧
     (∀ (installer2 : M Unit) (r : Unit) (w2 : World),
        installer2 { mkWorld fs_comfy_no_python with
          fs := rmtreeFs (mkWorld fs_comfy_no_python).fs
            ["srv", "custom_nodes", "comfyui_controlnet_aux"] } = (Except.ok r, w2) →
        install_if_missing ["srv", "custom_nodes", "comfyui_controlnet_aux"]
          installer2
          { mkWorld fs_comfy_no_python with
            fs := rmtreeFs (mkWorld fs_comfy_no_python).fs
              ["srv", "custom_nodes", "comfyui_controlnet_aux"] } =
          (Except.ok r, w2))) :=
  ⟨by decide, rfl,
   claim7_cleanup_on_failure ["srv", "custom_nodes", "comfyui_controlnet_aux"]
     failingInstaller
     (mkWorld fs_comfy_no_python) (mkWorld fs_comfy_no_python)
     "Download failed" (by decide) rfl⟩

/-- Existing paths keep existing when another path is recorded. -/
theorem pexists_addPath_of (fs : FileSystem) (p q : FsPath)
    (h : pexists fs q = true) : pexists (addPath fs p) q = true := by
  unfold addPath
  split
  · exact h
  · simp only [pexists, List.any_append, Bool.or_eq_true]
    left
    exact h

/-- C8: a step whose target directory or file exists performs no work, a
download whose cache file exists is skipped reusing the cached bytes, and
`_install` on a completely installed tree performs no downloads,
extractions or dependency installs (it only ensures the cache directory
exists). -/
theorem claim8_skip_when_present (plat : Platform) (sp : FsPath)
    (backend : ServerBackend) (cd : FsPath) (python0 pip0 : FsPath)
    (w : World)
    (hcd : pexists w.fs cd = true)
    (hn1 : pexists w.fs (cd ++ ["custom_nodes", "comfyui_controlnet_aux"]) = true)
    (hn2 : pexists w.fs (cd ++ ["custom_nodes", "IPAdapter-ComfyUI"]) = true)
    (hn3 : pexists w.fs (cd ++ ["custom_nodes", "comfyui-tooling-nodes"]) = true)
    (hm1 : pexists w.fs (cd ++ ["models", "controlnet",
      "control_v11p_sd15_inpaint.safetensors"]) = true)
    (hm2 : pexists w.fs (cd ++ ["models", "clip_vision", "SD1.5",
      "pytorch_model.bin"]) = true)
    (hm3 : pexists w.fs (cd ++ ["custom_nodes", "IPAdapter-ComfyUI", "models",
      "ip-adapter_sd15.bin"]) = true) :
    (∀ (path : FsPath) (installer : M Unit) (w2 : World),
      pexists w2.fs path = true →
      install_if_missing path installer w2 = (Except.ok (), w2)) ∧
    (∀ (nm url : String) (archive : FsPath) (w2 : World),
      pexists w2.fs archive = true →
      download_cached nm url archive w2 = (Except.ok (), w2)) ∧
    install_impl plat sp backend (some cd) (some python0) (some pip0) w =
      (Except.ok (), { w with fs := addPath w.fs (sp ++ [".cache"]) }) := by
  refine ⟨?_, ?_, ?_⟩
  · intro path installer w2 h
    simp [install_if_missing, h]
  · intro nm url archive w2 h
    simp [download_cached, h]
  · have hcd' := pexists_addPath_of w.fs (sp ++ [".cache"]) cd hcd
    have hn1' := pexists_addPath_of w.fs (sp ++ [".cache"]) _ hn1
    have hn2' := pexists_addPath_of w.fs (sp ++ [".cache"]) _ hn2
    have hn3' := pexists_addPath_of w.fs (sp ++ [".cache"]) _ hn3
    have hm1' := pexists_addPath_of w.fs (sp ++ [".cache"]) _ hm1
    have hm2' := pexists_addPath_of w.fs (sp ++ [".cache"]) _ hm2
    have hm3' := pexists_addPath_of w.fs (sp ++ [".cache"]) _ hm3
    simp [install_impl, mseq, mok, mkdirPrim, install_if_missing,
      installNodes, installModels, required_custom_nodes, required_models,
      hcd', hn1', hn2', hn3', hm1', hm2', hm3']

/-- C8, witness on a complete installation snapshot. -/
theorem claim8_witness :
    pexists (mkWorld fs_complete).fs ["srv"] = true ∧
    (install_impl plat_sys ["srv"] ServerBackend.cuda (some ["srv"])
        (some ["usr", "bin", "python"]) (some ["usr", "bin", "pip"])
        (mkWorld fs_complete) =
      (Except.ok (), { mkWorld fs_complete with
        fs := addPath (mkWorld fs_complete).fs (["srv"] ++ [".cache"]) })) :=
  ⟨by decide,
   (claim8_skip_when_present plat_sys ["srv"] ServerBackend.cuda ["srv"]
     ["usr", "bin", "python"] ["usr", "bin", "pip"] (mkWorld fs_complete)
     (by decide) (by decide) (by decide) (by decide) (by decide) (by decide)
     (by decide)).2.2⟩

/-- Existence in a filesystem extended by one path. -/
theorem pexists_addPath (fs : FileSystem) (p q : FsPath) :
    pexists (addPath fs p) q = (pexists fs q || q.isPrefixOf p) := by
  unfold addPath
  split
  · rename_i hp
    by_cases hq : q.isPrefixOf p = true
    · have hqq : pexists fs q = true := by
        simp only [pexists, List.any_eq_true] at hp ⊢
        obtain ⟨l, hl, hpl⟩ := hp
        refine ⟨l, hl, ?_⟩
        rw [List.isPrefixOf_iff_prefix] at hq hpl ⊢
        exact hq.trans hpl
      simp [hqq]
    · simp only [Bool.not_eq_true] at hq
      simp [hq]
  · simp [pexists, List.any_append]

/-- The two default checkpoints have distinct target files. -/
theorem checkpoint_targets_distinct (cd : FsPath) :
    (cd ++ ["models", "checkpoints", "dreamshaper_8.safetensors"]).isPrefixOf
      (cd ++ ["models", "checkpoints",
        "realisticVisionV51_v51VAE.safetensors"]) = false := by
  rw [Bool.eq_false_iff]
  intro h
  rw [List.isPrefixOf_iff_prefix, List.prefix_append_right_inj] at h
  exact absurd (List.isPrefixOf_iff_prefix.mpr h) (by decide)

/-- Evaluation of the optional-checkpoint loop when all downloads succeed:
it succeeds and downloads exactly the named checkpoints whose target file
was absent, in catalog order. -/
theorem optLoop_checkpoints (cd : FsPath) (packages : List String) (w : World)
    (hdl : ∀ url, w.downloadOk url = true) :
    (optLoop cd packages default_checkpoints w).1 = Except.ok () ∧
    (optLoop cd packages default_checkpoints w).2.actions =
      w.actions ++ (default_checkpoints.filter (fun cp =>
        packages.contains cp.name &&
        !(pexists w.fs (cd ++ cp.folder ++ [cp.filename])))).map (fun cp =>
          InstallAction.download cp.url (cd ++ cp.folder ++ [cp.filename])) := by
  by_cases b1 : "Realistic Vision" ∈ packages <;>
  by_cases e1 : pexists w.fs (cd ++ ["models", "checkpoints",
    "realisticVisionV51_v51VAE.safetensors"]) = true <;>
  by_cases b2 : "DreamShaper" ∈ packages <;>
  by_cases e2 : pexists w.fs (cd ++ ["models", "checkpoints",
    "dreamshaper_8.safetensors"]) = true <;>
  simp [optLoop, download_cached, downloadPrim, mseq, mok, recordAct,
    default_checkpoints, b1, e1, b2, e2, hdl, pexists_addPath,
    checkpoint_targets_distinct]

/-- C9: `install_optional` (backend root present) passes through
`installing`, restores the pre-call state and then re-probes regardless of
success or failure (so the final state is the re-probed one), and, when
downloads succeed, downloads exactly the named optional checkpoints that
were absent, in catalog order. -/
theorem claim9_install_optional (plat : Platform) (sp : FsPath) (s : ServerS)
    (cd : FsPath) (packages : List String) (w : World) :
    (install_optional plat sp s (some cd) packages w).stateTrace =
      [ServerState.installing, s.state,
       (check_install plat
         (install_optional plat sp s (some cd) packages w).world.fs sp).state] ∧
    (install_optional plat sp s (some cd) packages w).server.state =
      (check_install plat
        (install_optional plat sp s (some cd) packages w).world.fs sp).state ∧
    ((∀ url, w.downloadOk url = true) →
      (install_optional plat sp s (some cd) packages w).world.actions =
        w.actions ++ (default_checkpoints.filter (fun cp =>
          packages.contains cp.name &&
          !(pexists w.fs (cd ++ cp.folder ++ [cp.filename])))).map (fun cp =>
            InstallAction.download cp.url (cd ++ cp.folder ++ [cp.filename]))) := by
  rcases hrun : optLoop cd packages default_checkpoints w with ⟨r, w'⟩
  cases r with
  | ok a =>
      refine ⟨?_, ?_, ?_⟩
      · simp [install_optional, hrun, applyProbe]
      · simp [install_optional, hrun, applyProbe]
      · intro hdl
        have h := optLoop_checkpoints cd packages w hdl
        rw [hrun] at h
        simpa [install_optional, hrun] using h.2
  | error e =>
      refine ⟨?_, ?_, ?_⟩
      · simp [install_optional, hrun, applyProbe]
      · simp [install_optional, hrun, applyProbe]
      · intro hdl
        exfalso
        have h := optLoop_checkpoints cd packages w hdl
        rw [hrun] at h
        simp at h

/-- C9, witness at a concrete environment. -/
theorem claim9_witness :
    (install_optional plat_sys ["srv"] (serverAt ServerState.missing_resources)
        (some ["srv"]) ["DreamShaper"] (mkWorld fs_comfy_no_python)).stateTrace =
      [ServerState.installing, (serverAt ServerState.missing_resources).state,
       (check_install plat_sys
         (install_optional plat_sys ["srv"] (serverAt ServerState.missing_resources)
           (some ["srv"]) ["DreamShaper"] (mkWorld fs_comfy_no_python)).world.fs
         ["srv"]).state] ∧
    (install_optional plat_sys ["srv"] (serverAt ServerState.missing_resources)
        (some ["srv"]) ["DreamShaper"] (mkWorld fs_comfy_no_python)).server.state =
      (check_install plat_sys
        (install_optional plat_sys ["srv"] (serverAt ServerState.missing_resources)
          (some ["srv"]) ["DreamShaper"] (mkWorld fs_comfy_no_python)).world.fs
        ["srv"]).state ∧
    ((∀ url, (mkWorld fs_comfy_no_python).downloadOk url = true) →
      (install_optional plat_sys ["srv"] (serverAt ServerState.missing_resources)
          (some ["srv"]) ["DreamShaper"] (mkWorld fs_comfy_no_python)).world.actions =
        (mkWorld fs_comfy_no_python).actions ++
          (default_checkpoints.filter (fun cp =>
            (["DreamShaper"] : List String).contains cp.name &&
            !(pexists (mkWorld fs_comfy_no_python).fs
              (["srv"] ++ cp.folder ++ [cp.filename])))).map (fun cp =>
              InstallAction.download cp.url (["srv"] ++ cp.folder ++ [cp.filename]))) :=
  claim9_install_optional plat_sys ["srv"] (serverAt ServerState.missing_resources)
    ["srv"] ["DreamShaper"] (mkWorld fs_comfy_no_python)
